import Mathlib

/-!
Shallow embedding of the link-layer protocol implementation in
`src/linklayer_mod.c` (constants from the header `linklayer.h`).

Bytes are modelled as natural numbers; a C `byte_t` array holding a frame of
`sizeFrame` bytes is modelled as a `List ℕ` of that length, with reads
`frameRx[i]` modelled as `List.getD i 0`.  C `int` values that can go
negative (return codes, `lastSeqRx`, which is initialised to the sentinel
-1) are modelled as `Int`.  The C `%` operator on `int` truncates toward
zero, which is `Int.tmod`.

The model covers normal-mode operation (`debug ≠ SIMPLE`): the
`debug == SIMPLE` branches of `LL_send` (lines 158-162) and `LL_receive`
(lines 300-306, 326) are test-only shortcuts that none of the verified
properties concern.  Printing (`printf`) has no effect on the state and is
not modelled.  The physical layer is modelled as an environment: a function
from the attempt number to the event the blocking call of that loop
iteration observes.
-/

namespace LinkLayer

/-! ### Protocol constants, from `linklayer.h` -/

def MAX_BLK : ℕ := 200
def OPT_BLK : ℕ := 70
def MOD_SEQNUM : ℕ := 16
def STARTBYTE : ℕ := 212
def ENDBYTE : ℕ := 204
def FRSPOS : ℕ := 1
def SEQNUMPOS : ℕ := 2
def HEADERSIZE : ℕ := 3
def TRAILERSIZE : ℕ := 2
def FRAMEGOOD : ℕ := 1
def FRAMEBAD : ℕ := 0
def POSACK : ℕ := 1
def NEGACK : ℕ := 26
def ACK_SIZE : ℕ := 5
def MAX_TRIES : ℕ := 5
def MODULO : ℕ := 251

def SUCCESS : Int := 0
def BADUSE : Int := -9
def FAILURE : Int := -12
def GIVEUP : Int := -15

/-! ### Frame codec -/

/-- `buildDataFrame` (linklayer_mod.c lines 401-437): builds
`STARTBYTE, frameSize, seq, data…, checkSum, ENDBYTE`.
The frame-size and sequence bytes are stored through a `byte_t` cast
(mod 256); the checksum is computed from the un-cast `int` values
`seq + frameSize + sum of data bytes`, reduced mod `MODULO`.
The C function writes into a caller buffer and returns the frame length;
the model returns the frame bytes (their number is the returned size). -/
def buildDataFrame (dataTx : List ℕ) (seq : ℕ) : List ℕ :=
  let frameSize := HEADERSIZE + TRAILERSIZE + dataTx.length
  let checkSum := (seq + frameSize + dataTx.sum) % MODULO
  [STARTBYTE, frameSize % 256, seq % 256] ++ dataTx ++ [checkSum, ENDBYTE]

/-- `checkFrame` (lines 524-564).  Reads the carried checksum at
`sizeFrame-2`, recomputes the checksum over bytes `1 .. sizeFrame-3`
(the loop reads `frameRx[(HEADERSIZE-2)+i]` for `0 ≤ i < sizeFrame-3`,
modelled as the slice `(drop 1).take (sizeFrame-3)`), then checks the
start marker at 0 and the end marker at `sizeFrame-1`, returning
`FRAMEBAD` at the first failure and `FRAMEGOOD` otherwise.
It does not compare the frame-size byte with `sizeFrame`. -/
def checkFrame (frameRx : List ℕ) (sizeFrame : ℕ) : ℕ :=
  let checkSum_Rx := frameRx.getD (sizeFrame - 2) 0
  let checkSum_Lcl := ((frameRx.drop 1).take (sizeFrame - 3)).sum % MODULO
  if checkSum_Lcl ≠ checkSum_Rx then FRAMEBAD
  else if frameRx.getD 0 0 ≠ STARTBYTE then FRAMEBAD
  else if frameRx.getD (sizeFrame - 1) 0 ≠ ENDBYTE then FRAMEBAD
  else FRAMEGOOD

/-- `processFrame` (lines 577-599): extracts the sequence number from byte
`SEQNUMPOS`, computes `nRXdata = sizeFrame - HEADERSIZE - TRAILERSIZE`
(as a C `int`, so possibly negative), caps it at `maxData`, and copies that
many bytes starting at offset `HEADERSIZE`.  Returns
(data copied, sequence number, returned `nRXdata`). -/
def processFrame (frameRx : List ℕ) (sizeFrame : ℕ) (maxData : ℕ) :
    List ℕ × ℕ × Int :=
  let seqNum := frameRx.getD SEQNUMPOS 0
  let nRXdata : Int := (sizeFrame : Int) - HEADERSIZE - TRAILERSIZE
  let nRXdata := if nRXdata > (maxData : Int) then (maxData : Int) else nRXdata
  ((frameRx.drop HEADERSIZE).take nRXdata.toNat, seqNum, nRXdata)

/-- `next` (lines 654-657): advance a sequence number modulo `MOD_SEQNUM`.
Kept on `Int` because it is applied to `lastSeqRx`, whose initial value is
the sentinel -1; `Int.tmod` is C's truncating `%`. -/
def next (seq : Int) : Int :=
  (seq + 1).tmod (MOD_SEQNUM : Int)

/-! ### Connection state -/

/-- The file-static variables of linklayer_mod.c (lines 24-34) that the
protocol functions read and write.  `seqNumTx` and `lastSeqRx` are C
`int`s (the latter is initialised to -1). -/
structure LLState where
  connected : Bool
  seqNumTx : Int
  lastSeqRx : Int
  framesSent : ℕ
  acksSent : ℕ
  naksSent : ℕ
  acksRx : ℕ
  naksRx : ℕ
  badFrames : ℕ
  goodFrames : ℕ
  timeouts : ℕ
  deriving Repr, DecidableEq

/-- `LL_connect` (lines 42-70), success case: the state after `PHY_open`
succeeds — connected, `seqNumTx = 0`, `lastSeqRx = -1`, all counters 0. -/
def LL_connect : LLState :=
  { connected := true, seqNumTx := 0, lastSeqRx := -1,
    framesSent := 0, acksSent := 0, naksSent := 0, acksRx := 0,
    naksRx := 0, badFrames := 0, goodFrames := 0, timeouts := 0 }

/-- `sendAck` (lines 610-649), with the transmit succeeding: updates the
ack/nak-sent counter according to `type` and reports the (type, sequence)
of the transmitted response.  (`PHY_send` failure would leave the counters
untouched; `LL_receive` ignores `sendAck`'s return value either way.) -/
def sendAck (st : LLState) (type : ℕ) (seq : Int) : LLState × (ℕ × Int) :=
  (if type = POSACK then { st with acksSent := st.acksSent + 1 }
   else if type = NEGACK then { st with naksSent := st.naksSent + 1 }
   else st, (type, seq))

/-! ### Sender (`LL_send`, lines 112-230, normal mode) -/

/-- What one iteration of `LL_send`'s retry loop observes from the
physical layer: `PHY_send` reporting fewer bytes than requested
(line 146), `getFrame` returning a negative value (line 166), `getFrame`
returning 0 = timeout (line 170), or a received response frame. -/
inductive SendEvent where
  | phySendFail
  | ackRecvError
  | ackTimeout
  | ackFrame (f : List ℕ)
  deriving Repr, DecidableEq

/-- Disposition of one execution of `LL_send`'s loop body: return
`FAILURE` immediately, leave the loop with `success = TRUE`, or keep
`success = FALSE` (the do-while decides whether to go round again). -/
inductive SendStepRes where
  | fail (st : LLState)
  | done (st : LLState)
  | again (st : LLState)
  deriving Repr, DecidableEq

/-- One execution of `LL_send`'s loop body (lines 142-215), normal mode.
`seq` is `seqNumTx`, unchanged throughout the loop.
* `PHY_send` short write ⇒ `FAILURE` before `framesSent++` (lines 146-150);
* otherwise `framesSent++` (line 152), then the response wait:
  negative `getFrame` ⇒ `FAILURE` (lines 166-169); zero ⇒ `timeouts++` and
  go round (lines 170-177); a frame ⇒ `checkFrame`: good with matching
  sequence ⇒ `goodFrames++`, `acksRx++`, success (lines 180-193); good with
  other sequence ⇒ `goodFrames++`, `naksRx++`, go round (lines 194-202);
  bad ⇒ `badFrames++`, go round (lines 204-212). -/
def sendStep (seq : Int) (st : LLState) (ev : SendEvent) : SendStepRes :=
  match ev with
  | .phySendFail => .fail st
  | .ackRecvError => .fail { st with framesSent := st.framesSent + 1 }
  | .ackTimeout =>
      .again { st with framesSent := st.framesSent + 1,
                       timeouts := st.timeouts + 1 }
  | .ackFrame f =>
      let st1 := { st with framesSent := st.framesSent + 1 }
      if checkFrame f f.length = FRAMEGOOD then
        let st2 := { st1 with goodFrames := st1.goodFrames + 1 }
        let seqAck : Int := (f.getD SEQNUMPOS 0 : ℕ)
        if seqAck = seq then
          .done { st2 with acksRx := st2.acksRx + 1 }
        else
          .again { st2 with naksRx := st2.naksRx + 1 }
      else
        .again { st1 with badFrames := st1.badFrames + 1 }

/-- `LL_send`'s do-while loop (lines 142-216) together with the
post-loop returns (lines 218-228).  `fuel = MAX_TRIES - attempts` is the
remaining attempt budget; `attempt` indexes the environment.  Returns the
return code, the final state, and the list of frames handed to `PHY_send`
(each loop iteration transmits the one frame built before the loop).
On success the sequence counter advances: `seqNumTx = next(seqNumTx)`
(line 220); on `GIVEUP` and `FAILURE` it does not. -/
def sendLoop (env : ℕ → SendEvent) (frame : List ℕ) (seq : Int)
    (st : LLState) (attempt : ℕ) : ℕ → Int × LLState × List (List ℕ)
  | 0 => (GIVEUP, st, [])
  | fuel + 1 =>
      match sendStep seq st (env attempt) with
      | .fail st' => (FAILURE, st', [frame])
      | .done st' => (SUCCESS, { st' with seqNumTx := next seq }, [frame])
      | .again st' =>
          let r := sendLoop env frame seq st' (attempt + 1) fuel
          (r.1, r.2.1, frame :: r.2.2)

/-- `LL_send` (lines 112-230), normal mode: reject when not connected
(lines 124-128) or when the block exceeds `MAX_BLK` (lines 131-136), both
without transmitting; otherwise build the frame once (line 139) and run
the retry loop with budget `MAX_TRIES`. -/
def LL_send (st : LLState) (dataTx : List ℕ) (env : ℕ → SendEvent) :
    Int × LLState × List (List ℕ) :=
  if st.connected = false then (BADUSE, st, [])
  else if MAX_BLK < dataTx.length then (BADUSE, st, [])
  else
    let frame := buildDataFrame dataTx st.seqNumTx.toNat
    sendLoop env frame st.seqNumTx st 0 MAX_TRIES

/-! ### Receiver (`LL_receive`, lines 246-375, normal mode) -/

/-- What one iteration of `LL_receive`'s loop observes: `getFrame`
negative (line 274), zero = timeout (line 280), or a received frame. -/
inductive RecvEvent where
  | recvError
  | timeout
  | frame (f : List ℕ)
  deriving Repr, DecidableEq

/-- Outcome of `LL_receive`: the delivered data with the returned
`nRXdata`, or one of the error return codes. -/
inductive RecvResult where
  | delivered (data : List ℕ) (n : Int)
  | baduse
  | failure
  | giveup
  deriving Repr, DecidableEq

/-- Disposition of one execution of `LL_receive`'s loop body, with the
acknowledgements (type, sequence) transmitted during this iteration and,
for a continuing iteration, the current contents of the caller's data
buffer and `nRXdata` (both persist across iterations). -/
inductive RecvStepRes where
  | fail (st : LLState)
  | done (st : LLState) (acks : List (ℕ × Int)) (data : List ℕ) (n : Int)
  | again (st : LLState) (acks : List (ℕ × Int)) (buf : List ℕ × Int)
  deriving Repr, DecidableEq

/-- One execution of `LL_receive`'s loop body (lines 267-362), normal
mode.  `expected` was computed once, before the loop (line 255).
* negative `getFrame` ⇒ `FAILURE`, before `attempts++` (lines 274-277);
* timeout ⇒ `timeouts++`, go round (lines 280-287);
* a frame ⇒ `checkFrame` (line 294): bad ⇒ `badFrames++` and, in normal
  mode, nothing else — no response is sent (lines 296, 307-313); good ⇒
  `goodFrames++` and `processFrame` fills the data buffer (lines 318-321),
  then the sequence check: `seqNumRx = expected` ⇒ accept: success,
  `lastSeqRx := seqNumRx`, `sendAck(POSACK, seqNumRx)` (lines 328-337);
  `seqNumRx = lastSeqRx` (duplicate) ⇒ the code also sets success,
  updates `lastSeqRx` and sends `POSACK, seqNumRx` (lines 338-349);
  any other value ⇒ `sendAck(POSACK, lastSeqRx)`, `success = FALSE`,
  go round (lines 350-357). -/
def recvStep (expected : Int) (maxData : ℕ) (st : LLState)
    (buf : List ℕ × Int) (ev : RecvEvent) : RecvStepRes :=
  match ev with
  | .recvError => .fail st
  | .timeout => .again { st with timeouts := st.timeouts + 1 } [] buf
  | .frame f =>
      if checkFrame f f.length = FRAMEBAD then
        .again { st with badFrames := st.badFrames + 1 } [] buf
      else
        let st1 := { st with goodFrames := st.goodFrames + 1 }
        let p := processFrame f f.length maxData
        let seqNumRx : Int := (p.2.1 : ℕ)
        if seqNumRx = expected then
          let a := sendAck { st1 with lastSeqRx := seqNumRx } POSACK seqNumRx
          .done a.1 [a.2] p.1 p.2.2
        else if seqNumRx = st.lastSeqRx then
          let a := sendAck { st1 with lastSeqRx := seqNumRx } POSACK seqNumRx
          .done a.1 [a.2] p.1 p.2.2
        else
          let a := sendAck st1 POSACK st.lastSeqRx
          .again a.1 [a.2] (p.1, p.2.2)

/-- `LL_receive`'s do-while loop (lines 267-364) with the post-loop
returns (lines 366-373).  Returns the result, the final state, and all
acknowledgements transmitted, in order. -/
def recvLoop (env : ℕ → RecvEvent) (expected : Int) (maxData : ℕ)
    (st : LLState) (buf : List ℕ × Int) (attempt : ℕ) :
    ℕ → RecvResult × LLState × List (ℕ × Int)
  | 0 => (.giveup, st, [])
  | fuel + 1 =>
      match recvStep expected maxData st buf (env attempt) with
      | .fail st' => (.failure, st', [])
      | .done st' acks d n => (.delivered d n, st', acks)
      | .again st' acks buf' =>
          let r := recvLoop env expected maxData st' buf' (attempt + 1) fuel
          (r.1, r.2.1, acks ++ r.2.2)

/-- `LL_receive` (lines 246-375), normal mode: `expected = next lastSeqRx`
is computed once (line 255); a disconnected call is rejected (lines
258-262); otherwise the loop runs with budget `MAX_TRIES`. -/
def LL_receive (st : LLState) (maxData : ℕ) (env : ℕ → RecvEvent) :
    RecvResult × LLState × List (ℕ × Int) :=
  let expected := next st.lastSeqRx
  if st.connected = false then (.baduse, st, [])
  else recvLoop env expected maxData st ([], 0) 0 MAX_TRIES

/-! ### Basic facts about the codec -/

theorem buildDataFrame_eq (b : List ℕ) (s : ℕ) :
    buildDataFrame b s =
      ([STARTBYTE, (HEADERSIZE + TRAILERSIZE + b.length) % 256, s % 256] ++ b)
        ++ [(s + (HEADERSIZE + TRAILERSIZE + b.length) + b.sum) % MODULO,
            ENDBYTE] := by
  simp [buildDataFrame]

theorem buildDataFrame_length (b : List ℕ) (s : ℕ) :
    (buildDataFrame b s).length = b.length + 5 := by
  simp [buildDataFrame, HEADERSIZE, TRAILERSIZE]

/-- The slice of a built frame that `checkFrame` sums: the frame-size
byte, the sequence byte and the payload bytes. -/
theorem buildDataFrame_checkSlice (b : List ℕ) (s : ℕ) :
    ((buildDataFrame b s).drop 1).take (b.length + 2) =
      [(HEADERSIZE + TRAILERSIZE + b.length) % 256, s % 256] ++ b := by
  rw [buildDataFrame_eq]
  have h1 : ([STARTBYTE, (HEADERSIZE + TRAILERSIZE + b.length) % 256,
      s % 256] ++ b).drop 1 =
      [(HEADERSIZE + TRAILERSIZE + b.length) % 256, s % 256] ++ b := by
    simp
  rw [List.drop_append_of_le_length (by simp), h1]
  rw [List.take_append_of_le_length (by simp)]
  exact List.take_of_length_le (by simp)

theorem buildDataFrame_getD_checkSum (b : List ℕ) (s : ℕ) :
    (buildDataFrame b s).getD (b.length + 3) 0 =
      (s + (HEADERSIZE + TRAILERSIZE + b.length) + b.sum) % MODULO := by
  rw [buildDataFrame_eq]
  rw [List.getD_append_right _ _ _ _ (by simp)]
  simp

theorem buildDataFrame_getD_end (b : List ℕ) (s : ℕ) :
    (buildDataFrame b s).getD (b.length + 4) 0 = ENDBYTE := by
  rw [buildDataFrame_eq]
  rw [List.getD_append_right _ _ _ _ (by simp)]
  simp

theorem buildDataFrame_getD_start (b : List ℕ) (s : ℕ) :
    (buildDataFrame b s).getD 0 0 = STARTBYTE := by
  rw [buildDataFrame_eq]; simp [List.getD]

theorem buildDataFrame_getD_seq (b : List ℕ) (s : ℕ) :
    (buildDataFrame b s).getD SEQNUMPOS 0 = s % 256 := by
  rw [buildDataFrame_eq]
  rw [List.getD_append _ _ _ _ (by simp [SEQNUMPOS])]
  simp [SEQNUMPOS, List.getD]

/-- A frame built from a block within the size limit and an in-range
sequence number passes `checkFrame`. -/
theorem checkFrame_buildDataFrame (b : List ℕ) (s : ℕ)
    (hb : b.length ≤ MAX_BLK) (hs : s < MOD_SEQNUM) :
    checkFrame (buildDataFrame b s) (buildDataFrame b s).length = FRAMEGOOD := by
  have hn := buildDataFrame_length b s
  have hb' : b.length ≤ 200 := hb
  have hs' : s < 16 := hs
  have hfs : (HEADERSIZE + TRAILERSIZE + b.length) % 256 =
      HEADERSIZE + TRAILERSIZE + b.length := by
    apply Nat.mod_eq_of_lt
    show 3 + 2 + b.length < 256
    omega
  have hsq : s % 256 = s := Nat.mod_eq_of_lt (by omega)
  unfold checkFrame
  rw [hn]
  have h2 : b.length + 5 - 2 = b.length + 3 := by omega
  have h3 : b.length + 5 - 3 = b.length + 2 := by omega
  have h1 : b.length + 5 - 1 = b.length + 4 := by omega
  rw [h2, h3, h1, buildDataFrame_getD_checkSum, buildDataFrame_checkSlice,
      buildDataFrame_getD_start, buildDataFrame_getD_end]
  simp only [List.sum_append, List.sum_cons, List.sum_nil, hfs, hsq]
  have : (HEADERSIZE + TRAILERSIZE + b.length + (s + 0) + b.sum) % MODULO =
      (s + (HEADERSIZE + TRAILERSIZE + b.length) + b.sum) % MODULO := by
    ring_nf
  rw [this]
  simp

/-- `processFrame` on a built frame recovers the payload, the sequence
byte, and the payload length (when `maxData` allows). -/
theorem processFrame_buildDataFrame (b : List ℕ) (s maxData : ℕ)
    (hs : s < MOD_SEQNUM) (hm : b.length ≤ maxData) :
    processFrame (buildDataFrame b s) (buildDataFrame b s).length maxData =
      (b, s, (b.length : Int)) := by
  have hn := buildDataFrame_length b s
  have hs' : s < 16 := hs
  have hsq : s % 256 = s := Nat.mod_eq_of_lt (by omega)
  unfold processFrame
  rw [hn, buildDataFrame_getD_seq, hsq]
  have h4 : ((b.length : Int) + 5) - HEADERSIZE - TRAILERSIZE = b.length := by
    simp [HEADERSIZE, TRAILERSIZE]; ring
  have hle : ¬ ((b.length : Int) > (maxData : Int)) := by
    simp; exact_mod_cast hm
  simp only [Nat.cast_add, Nat.cast_ofNat, h4, hle, if_false, if_neg hle]
  have hdrop : (buildDataFrame b s).drop HEADERSIZE = b ++
      [(s + (HEADERSIZE + TRAILERSIZE + b.length) + b.sum) % MODULO,
       ENDBYTE] := by
    rw [buildDataFrame_eq, List.drop_append_of_le_length (by simp [HEADERSIZE])]
    simp [HEADERSIZE]
  rw [hdrop]
  simp [List.take_append_of_le_length (le_refl b.length)]

/-! ### Claim C2 -/

/-- C2: for every byte block `b` with `len(b) ≤ MAX_BLK` and every
sequence number `s` in `[0, MOD_SEQNUM)`, the frame produced by
`buildDataFrame(b, s)` passes `checkFrame` (`FRAMEGOOD`), and
`processFrame` applied to it with `maxData ≥ len(b)` extracts exactly the
payload `b` and the sequence number `s`. -/
theorem C2_frame_round_trip (b : List ℕ) (s maxData : ℕ)
    (hb : b.length ≤ MAX_BLK) (hbytes : ∀ x ∈ b, x < 256)
    (hs : s < MOD_SEQNUM) (hm : b.length ≤ maxData) :
    checkFrame (buildDataFrame b s) (buildDataFrame b s).length = FRAMEGOOD ∧
    processFrame (buildDataFrame b s) (buildDataFrame b s).length maxData
      = (b, s, (b.length : Int)) :=
  ⟨checkFrame_buildDataFrame b s hb hs,
   processFrame_buildDataFrame b s maxData hs hm⟩

/-- C2, witness: the round trip at block `[1, 2, 3]`, sequence 7. -/
theorem C2_frame_round_trip_witness :
    checkFrame (buildDataFrame [1, 2, 3] 7)
        (buildDataFrame [1, 2, 3] 7).length = FRAMEGOOD ∧
    processFrame (buildDataFrame [1, 2, 3] 7)
        (buildDataFrame [1, 2, 3] 7).length 16 = ([1, 2, 3], 7, 3) :=
  C2_frame_round_trip [1, 2, 3] 7 16 (by decide) (by decide) (by decide)
    (by decide)

/-! ### Claim C8 -/

/-- C8, counterexample: `checkFrame` does not compare the declared
frame-size byte with the received length.  This 6-byte sequence declares
a frame size of 10, yet its checksum (over bytes 1..3) and both markers
check out, so `checkFrame` classifies it `FRAMEGOOD`. -/
theorem C8_size_byte_not_checked :
    checkFrame [212, 10, 0, 0, 10, 204] 6 = FRAMEGOOD ∧
    ([212, 10, 0, 0, 10, 204] : List ℕ).getD FRSPOS 0 ≠ 6 := by
  decide

/-- Exact characterisation of `checkFrame`: good iff the checksum over
bytes `1 .. sizeFrame-3` matches the byte at `sizeFrame-2` and both
markers are in place.  (The declared frame-size byte is never compared
with `sizeFrame`.) -/
theorem checkFrame_iff (f : List ℕ) (n : ℕ) :
    checkFrame f n = FRAMEGOOD ↔
      (((f.drop 1).take (n - 3)).sum % MODULO = f.getD (n - 2) 0 ∧
       f.getD 0 0 = STARTBYTE ∧ f.getD (n - 1) 0 = ENDBYTE) := by
  unfold checkFrame
  have hBG : FRAMEBAD ≠ FRAMEGOOD := by decide
  by_cases h1 : ((f.drop 1).take (n - 3)).sum % MODULO = f.getD (n - 2) 0 <;>
    by_cases h2 : f.getD 0 0 = STARTBYTE <;>
      by_cases h3 : f.getD (n - 1) 0 = ENDBYTE <;>
        simp only [List.getD_eq_getElem?_getD, List.drop_one] at h1 h2 h3 ⊢ <;>
          simp [h1, h2, h3, hBG]

/-- `checkFrame` only ever returns `FRAMEBAD` or `FRAMEGOOD`. -/
theorem checkFrame_cases (f : List ℕ) (n : ℕ) :
    checkFrame f n = FRAMEBAD ∨ checkFrame f n = FRAMEGOOD := by
  unfold checkFrame
  by_cases h1 : ((f.drop 1).take (n - 3)).sum % MODULO = f.getD (n - 2) 0 <;>
    by_cases h2 : f.getD 0 0 = STARTBYTE <;>
      by_cases h3 : f.getD (n - 1) 0 = ENDBYTE <;>
        simp only [List.getD_eq_getElem?_getD, List.drop_one] at h1 h2 h3 ⊢ <;>
          simp [h1, h2, h3]

/-- C8, amended: `checkFrame` returns `FRAMEGOOD` iff the recomputed
checksum over bytes `1 .. sizeFrame-3` (frame-size byte, sequence byte and
payload) equals the carried checksum byte at `sizeFrame-2`, the start
marker is present, and the end marker is present; it never compares the
declared frame-size byte with the number of bytes received. -/
theorem C8_checkFrame_characterisation (f : List ℕ) (n : ℕ) :
    checkFrame f n = FRAMEGOOD ↔
      (((f.drop 1).take (n - 3)).sum % MODULO = f.getD (n - 2) 0 ∧
       f.getD 0 0 = STARTBYTE ∧ f.getD (n - 1) 0 = ENDBYTE) :=
  checkFrame_iff f n

/-! ### Claim C3 -/

/-- Flip bit `k` of the byte at position `p` of a byte sequence — the
single-bit corruption considered by the checksum-sensitivity property. -/
def flipBit (f : List ℕ) (p k : ℕ) : List ℕ :=
  f.set p (f.getD p 0 ^^^ 2 ^ k)

theorem sum_set_getD (l : List ℕ) (p v : ℕ) (hp : p < l.length) :
    (l.set p v).sum + l.getD p 0 = l.sum + v := by
  induction l generalizing p with
  | nil => simp at hp
  | cons a t ih =>
    cases p with
    | zero => simp [List.getD]; omega
    | succ q =>
      simp only [List.set_cons_succ, List.sum_cons]
      have := ih q (by simpa using hp)
      have hg : (a :: t).getD (q + 1) 0 = t.getD q 0 := by simp [List.getD]
      rw [hg]
      omega

theorem getD_set_ne (l : List ℕ) (i j v : ℕ) (h : i ≠ j) :
    (l.set i v).getD j 0 = l.getD j 0 := by
  simp [List.getD_eq_getElem?_getD, List.getElem?_set_ne h]

theorem getD_mem (l : List ℕ) (p : ℕ) (h : p < l.length) : l.getD p 0 ∈ l := by
  rw [List.getD_eq_getElem?_getD, List.getElem?_eq_getElem h]
  exact List.getElem_mem ..

set_option maxRecDepth 10000 in
/-- Flipping one bit of a byte below 256 adds or removes exactly `2^k`. -/
theorem xor_pow2_cases :
    ∀ x < 256, ∀ k < 8, x ^^^ 2 ^ k = x + 2 ^ k ∨ x = (x ^^^ 2 ^ k) + 2 ^ k := by
  decide

theorem mod251_add_ne (a d : ℕ) (h0 : 0 < d) (hm : d < 251) :
    (a + d) % 251 ≠ a % 251 := by
  omega

/-- C3: for every frame produced by `buildDataFrame(b, s)` with
`len(b) ≤ MAX_BLK`, flipping any single bit of any non-marker header byte
(the frame-size byte at position 1 or the sequence byte at position 2) or
of any payload byte (positions 3 .. len(b)+2) yields a byte sequence that
`checkFrame` classifies as `FRAMEBAD`. -/
theorem C3_bit_flip_detected (b : List ℕ) (s p k : ℕ)
    (hb : b.length ≤ MAX_BLK) (hbytes : ∀ x ∈ b, x < 256)
    (hs : s < MOD_SEQNUM) (hp1 : 1 ≤ p) (hp2 : p ≤ b.length + 2)
    (hk : k < 8) :
    checkFrame (flipBit (buildDataFrame b s) p k)
      (flipBit (buildDataFrame b s) p k).length = FRAMEBAD := by
  have hb' : b.length ≤ 200 := hb
  have hs' : s < 16 := hs
  obtain ⟨q, rfl⟩ : ∃ q, p = q + 1 := ⟨p - 1, by omega⟩
  set n := b.length with hn
  -- the slice of the frame covered by the checksum, and its carried value
  set S : List ℕ := [(HEADERSIZE + TRAILERSIZE + n) % 256, s % 256] ++ b
    with hS
  set cs : ℕ := (s + (HEADERSIZE + TRAILERSIZE + n) + b.sum) % MODULO
    with hcs
  have hSlen : S.length = n + 2 := by simp [hS]
  have hfeq : buildDataFrame b s = STARTBYTE :: (S ++ [cs, ENDBYTE]) := by
    rw [buildDataFrame_eq]; simp [hS, hcs]
  have hq : q < S.length := by omega
  set v : ℕ := (buildDataFrame b s).getD (q + 1) 0 ^^^ 2 ^ k with hv
  -- length of the corrupted sequence
  have hlen : (flipBit (buildDataFrame b s) (q + 1) k).length = n + 5 := by
    rw [flipBit, List.length_set, buildDataFrame_length]
  -- the corrupted sequence, decomposed
  have hset : flipBit (buildDataFrame b s) (q + 1) k =
      STARTBYTE :: (S.set q v ++ [cs, ENDBYTE]) := by
    rw [flipBit, ← hv, hfeq]
    rw [List.set_cons_succ, List.set_append_left _ _ hq]
  -- the old byte is the q-th byte of the checksum slice
  have hold : (buildDataFrame b s).getD (q + 1) 0 = S.getD q 0 := by
    rw [hfeq]
    have h1 : (STARTBYTE :: (S ++ [cs, ENDBYTE])).getD (q + 1) 0 =
        (S ++ [cs, ENDBYTE]).getD q 0 := by simp [List.getD]
    rw [h1, List.getD_append _ _ _ _ hq]
  have holdlt : S.getD q 0 < 256 := by
    have hmem := getD_mem S q hq
    rw [hS] at hmem
    simp only [List.mem_append, List.mem_cons, List.not_mem_nil,
      or_false] at hmem
    rcases hmem with (h | h) | h
    · rw [h]; exact Nat.mod_lt _ (by omega)
    · rw [h]; exact Nat.mod_lt _ (by omega)
    · exact hbytes _ h
  -- the checksum slice of the corrupted sequence
  have hslice :
      ((flipBit (buildDataFrame b s) (q + 1) k).drop 1).take (n + 2) =
        S.set q v := by
    rw [hset]
    simp only [List.drop_one, List.tail_cons]
    rw [List.take_append_of_le_length (by rw [List.length_set, hSlen])]
    exact List.take_of_length_le (by rw [List.length_set, hSlen])
  -- the carried checksum byte is untouched
  have hcarried :
      (flipBit (buildDataFrame b s) (q + 1) k).getD (n + 3) 0 = cs := by
    rw [flipBit, getD_set_ne _ _ _ _ (by omega),
        buildDataFrame_getD_checkSum b s]
  -- the carried checksum is the sum of the uncorrupted slice mod MODULO
  have hSsum : cs = S.sum % 251 := by
    have hfs : (HEADERSIZE + TRAILERSIZE + n) % 256 =
        HEADERSIZE + TRAILERSIZE + n := by
      apply Nat.mod_eq_of_lt
      show 3 + 2 + n < 256
      omega
    have hsq : s % 256 = s := Nat.mod_eq_of_lt (by omega)
    rw [hS, hcs]
    simp only [List.sum_append, List.sum_cons, List.sum_nil, hfs, hsq]
    show (s + (HEADERSIZE + TRAILERSIZE + n) + b.sum) % MODULO = _
    have : HEADERSIZE + TRAILERSIZE + n + (s + 0) + b.sum =
        s + (HEADERSIZE + TRAILERSIZE + n) + b.sum := by ring
    rw [this]
    rfl
  -- the corrupted slice sum differs from the carried checksum mod MODULO
  have hsum := sum_set_getD S q v hq
  have hd : 0 < 2 ^ k := Nat.pos_pow_of_pos k (by omega)
  have hdle : 2 ^ k ≤ 128 := by
    calc 2 ^ k ≤ 2 ^ 7 := Nat.pow_le_pow_right (by omega) (by omega)
    _ = 128 := by norm_num
  have hmismatch : (S.set q v).sum % MODULO ≠ cs := by
    rcases xor_pow2_cases _ holdlt k hk with hca | hcb
    · -- bit was 0: new byte = old + 2^k, slice sum grows by 2^k
      have : (S.set q v).sum = S.sum + 2 ^ k := by
        rw [hv, hold] at *
        omega
      rw [this, hSsum]
      exact mod251_add_ne _ _ hd (by omega)
    · -- bit was 1: new byte = old - 2^k, slice sum shrinks by 2^k
      have : S.sum = (S.set q v).sum + 2 ^ k := by
        rw [hv, hold] at *
        omega
      rw [hSsum, this]
      exact (mod251_add_ne _ _ hd (by omega)).symm
  -- conclude via the characterisation of checkFrame
  rcases checkFrame_cases (flipBit (buildDataFrame b s) (q + 1) k)
      (flipBit (buildDataFrame b s) (q + 1) k).length with h | h
  · exact h
  · exfalso
    rw [checkFrame_iff] at h
    rcases h with ⟨h1, -, -⟩
    rw [hlen] at h1
    have e2 : n + 5 - 3 = n + 2 := by omega
    have e3 : n + 5 - 2 = n + 3 := by omega
    rw [e2, e3, hslice, hcarried] at h1
    exact hmismatch h1

/-- C3, witness: flipping bit 0 of the sequence byte (position 2) of the
frame built from block `[1, 2, 3]` with sequence 7 is detected. -/
theorem C3_bit_flip_detected_witness :
    checkFrame (flipBit (buildDataFrame [1, 2, 3] 7) 2 0)
      (flipBit (buildDataFrame [1, 2, 3] 7) 2 0).length = FRAMEBAD :=
  C3_bit_flip_detected [1, 2, 3] 7 2 0 (by decide) (by decide) (by decide)
    (by decide) (by decide) (by decide)

/-! ### Sender loop lemmas -/

/-- The state carried by a loop-body disposition. -/
def SendStepRes.state : SendStepRes → LLState
  | .fail st => st
  | .done st => st
  | .again st => st

/-- `LL_send`'s loop body never touches `seqNumTx`, `lastSeqRx` or
`naksSent` (the sequence counter is advanced only after the loop). -/
theorem sendStep_untouched (seq : Int) (st : LLState) (ev : SendEvent) :
    (sendStep seq st ev).state.seqNumTx = st.seqNumTx ∧
    (sendStep seq st ev).state.lastSeqRx = st.lastSeqRx ∧
    (sendStep seq st ev).state.naksSent = st.naksSent := by
  cases ev <;> simp only [sendStep] <;>
    first
      | exact ⟨rfl, rfl, rfl⟩
      | split <;> [skip; exact ⟨rfl, rfl, rfl⟩] <;>
          split <;> exact ⟨rfl, rfl, rfl⟩

/-- With an environment that always times out, the loop burns its whole
budget, transmitting the frame once per attempt, counting each timeout,
and ends with `GIVEUP`. -/
theorem sendLoop_all_timeouts (frame : List ℕ) (seq : Int) :
    ∀ (fuel : ℕ) (st : LLState) (attempt : ℕ),
      sendLoop (fun _ => SendEvent.ackTimeout) frame seq st attempt fuel =
        (GIVEUP,
         { st with framesSent := st.framesSent + fuel,
                   timeouts := st.timeouts + fuel },
         List.replicate fuel frame)
  | 0, st, attempt => by simp [sendLoop]
  | fuel + 1, st, attempt => by
      rw [sendLoop]
      simp only [sendStep, sendLoop_all_timeouts frame seq fuel _ (attempt + 1),
        Prod.mk.injEq, List.replicate_succ]
      refine ⟨trivial, ?_, trivial⟩
      congr 1 <;> omega

/-- Every frame the loop hands to `PHY_send` is the one frame built
before the loop: a retry retransmits the identical frame bytes. -/
theorem sendLoop_trace (env : ℕ → SendEvent) (frame : List ℕ) (seq : Int) :
    ∀ (fuel : ℕ) (st : LLState) (attempt : ℕ),
      ∀ g ∈ (sendLoop env frame seq st attempt fuel).2.2, g = frame
  | 0, st, attempt => by simp [sendLoop]
  | fuel + 1, st, attempt => by
      rw [sendLoop]
      cases h : sendStep seq st (env attempt) with
      | fail st' => simp
      | done st' => simp
      | again st' =>
          intro g hg
          simp only [List.mem_cons] at hg
          rcases hg with rfl | hg
          · rfl
          · exact sendLoop_trace env frame seq fuel st' (attempt + 1) g hg

/-- The loop result determines `seqNumTx`: advanced to `next seq` exactly
on `SUCCESS`, untouched on every other outcome. -/
theorem sendLoop_seqNumTx (env : ℕ → SendEvent) (frame : List ℕ)
    (seq : Int) :
    ∀ (fuel : ℕ) (st : LLState) (attempt : ℕ),
      ((sendLoop env frame seq st attempt fuel).1 = SUCCESS →
        (sendLoop env frame seq st attempt fuel).2.1.seqNumTx = next seq) ∧
      ((sendLoop env frame seq st attempt fuel).1 ≠ SUCCESS →
        (sendLoop env frame seq st attempt fuel).2.1.seqNumTx = st.seqNumTx)
  | 0, st, attempt => by
      constructor
      · intro h
        simp [sendLoop, GIVEUP, SUCCESS] at h
      · intro _
        simp [sendLoop]
  | fuel + 1, st, attempt => by
      rw [sendLoop]
      cases h : sendStep seq st (env attempt) with
      | fail st' =>
          constructor
          · intro hr
            simp [FAILURE, SUCCESS] at hr
          · intro _
            have := (sendStep_untouched seq st (env attempt)).1
            rw [h] at this
            exact this
      | done st' => simp
      | again st' =>
          have ih := sendLoop_seqNumTx env frame seq fuel st' (attempt + 1)
          have hpre := (sendStep_untouched seq st (env attempt)).1
          rw [h] at hpre
          constructor
          · intro hr
            exact ih.1 hr
          · intro hr
            rw [ih.2 hr]
            exact hpre

/-- `LL_send` never changes `naksSent` (needed for the global
no-negative-acknowledgement invariant). -/
theorem sendLoop_naksSent (env : ℕ → SendEvent) (frame : List ℕ)
    (seq : Int) :
    ∀ (fuel : ℕ) (st : LLState) (attempt : ℕ),
      (sendLoop env frame seq st attempt fuel).2.1.naksSent = st.naksSent
  | 0, st, attempt => by simp [sendLoop]
  | fuel + 1, st, attempt => by
      rw [sendLoop]
      cases h : sendStep seq st (env attempt) with
      | fail st' =>
          have := (sendStep_untouched seq st (env attempt)).2.2
          rw [h] at this
          exact this
      | done st' =>
          have := (sendStep_untouched seq st (env attempt)).2.2
          rw [h] at this
          exact this
      | again st' =>
          have hpre := (sendStep_untouched seq st (env attempt)).2.2
          rw [h] at hpre
          rw [sendLoop_naksSent env frame seq fuel st' (attempt + 1)]
          exact hpre

/-! ### Claim C4 -/

/-- C4: for every connected state and every block within the size limit,
if the peer never responds (every wait times out), `LL_send` returns
`GIVEUP` after exactly `MAX_TRIES` transmissions of the frame — not
fewer and not more. -/
theorem C4_giveup_after_max_tries (st : LLState) (b : List ℕ)
    (hc : st.connected = true) (hb : b.length ≤ MAX_BLK) :
    (LL_send st b (fun _ => SendEvent.ackTimeout)).1 = GIVEUP ∧
    (LL_send st b (fun _ => SendEvent.ackTimeout)).2.2.length = MAX_TRIES ∧
    ∀ g ∈ (LL_send st b (fun _ => SendEvent.ackTimeout)).2.2,
      g = buildDataFrame b st.seqNumTx.toNat := by
  have h1 : ¬ (st.connected = false) := by simp [hc]
  have h2 : ¬ (MAX_BLK < b.length) := by omega
  rw [LL_send, if_neg h1, if_neg h2]
  rw [sendLoop_all_timeouts]
  refine ⟨rfl, by simp, ?_⟩
  intro g hg
  simp only [List.mem_replicate] at hg
  exact hg.2

/-- C4, witness: a fresh connection sending `[1, 2, 3]` into silence. -/
theorem C4_giveup_after_max_tries_witness :
    (LL_send LL_connect [1, 2, 3] (fun _ => SendEvent.ackTimeout)).1 =
      GIVEUP ∧
    (LL_send LL_connect [1, 2, 3] (fun _ => SendEvent.ackTimeout)).2.2.length
      = MAX_TRIES ∧
    ∀ g ∈ (LL_send LL_connect [1, 2, 3]
        (fun _ => SendEvent.ackTimeout)).2.2,
      g = buildDataFrame [1, 2, 3] LL_connect.seqNumTx.toNat :=
  C4_giveup_after_max_tries LL_connect [1, 2, 3] (by decide) (by decide)

/-! ### Claim C5 -/

/-- `next` iterated `MOD_SEQNUM` times is the identity on `[0, 16)`. -/
theorem next_iterate_nat : ∀ t < 16, next^[16] ((t : ℕ) : Int) = t := by
  decide

/-- C5: `seqNumTx` is advanced to `next seqNumTx` exactly when `LL_send`
returns `SUCCESS` and is unchanged on every other outcome (`BADUSE`,
`FAILURE`, `GIVEUP`); consequently `MOD_SEQNUM` consecutive successful
sends bring `seqNumTx` back to its initial value. -/
theorem C5_seq_advance (st : LLState) (b : List ℕ) (env : ℕ → SendEvent) :
    ((LL_send st b env).1 = SUCCESS →
      (LL_send st b env).2.1.seqNumTx = next st.seqNumTx) ∧
    ((LL_send st b env).1 ≠ SUCCESS →
      (LL_send st b env).2.1.seqNumTx = st.seqNumTx) ∧
    (∀ s0 : Int, 0 ≤ s0 → s0 < (MOD_SEQNUM : Int) →
      next^[MOD_SEQNUM] s0 = s0) := by
  have hiter : ∀ s0 : Int, 0 ≤ s0 → s0 < (MOD_SEQNUM : Int) →
      next^[MOD_SEQNUM] s0 = s0 := by
    intro s0 h0 h16
    have h16' : s0 < 16 := h16
    have ht : s0.toNat < 16 := by omega
    have h := next_iterate_nat s0.toNat ht
    rwa [Int.toNat_of_nonneg h0] at h
  have hmain : ((LL_send st b env).1 = SUCCESS →
      (LL_send st b env).2.1.seqNumTx = next st.seqNumTx) ∧
      ((LL_send st b env).1 ≠ SUCCESS →
      (LL_send st b env).2.1.seqNumTx = st.seqNumTx) := by
    by_cases h1 : st.connected = false
    · rw [LL_send, if_pos h1]
      exact ⟨fun h => absurd h (by decide : ¬ BADUSE = SUCCESS),
        fun _ => rfl⟩
    · by_cases h2 : MAX_BLK < b.length
      · rw [LL_send, if_neg h1, if_pos h2]
        exact ⟨fun h => absurd h (by decide : ¬ BADUSE = SUCCESS),
          fun _ => rfl⟩
      · rw [LL_send, if_neg h1, if_neg h2]
        exact sendLoop_seqNumTx _ _ _ MAX_TRIES st 0
  exact ⟨hmain.1, hmain.2, hiter⟩

/-- C5, witness: an immediately acknowledged send advances `seqNumTx`,
a never-acknowledged send leaves it at 0, and 16 steps of `next` return
3 to 3. -/
theorem C5_seq_advance_witness :
    (LL_send LL_connect [1, 2, 3]
        (fun _ => SendEvent.ackFrame [212, 5, 0, 5, 204])).2.1.seqNumTx =
      next LL_connect.seqNumTx ∧
    (LL_send LL_connect [1, 2, 3]
        (fun _ => SendEvent.ackTimeout)).2.1.seqNumTx =
      LL_connect.seqNumTx ∧
    next^[MOD_SEQNUM] (3 : Int) = 3 :=
  ⟨(C5_seq_advance LL_connect [1, 2, 3]
      (fun _ => SendEvent.ackFrame [212, 5, 0, 5, 204])).1 (by decide),
   (C5_seq_advance LL_connect [1, 2, 3]
      (fun _ => SendEvent.ackTimeout)).2.1 (by decide),
   (C5_seq_advance LL_connect [1, 2, 3]
      (fun _ => SendEvent.ackTimeout)).2.2 3 (by decide) (by decide)⟩

/-! ### Claim C6 -/

/-- C6: a call with an oversized block, or made while not connected,
makes `LL_send` return `BADUSE` with no transmission (empty trace) and no
state change; `LL_receive` likewise returns `BADUSE` when not connected,
sending nothing and changing nothing. -/
theorem C6_baduse (st : LLState) (b : List ℕ) (m : ℕ)
    (envS : ℕ → SendEvent) (envR : ℕ → RecvEvent) :
    (st.connected = false →
      LL_send st b envS = (BADUSE, st, []) ∧
      LL_receive st m envR = (.baduse, st, [])) ∧
    (MAX_BLK < b.length → LL_send st b envS = (BADUSE, st, [])) := by
  refine ⟨fun hc => ⟨?_, ?_⟩, fun hl => ?_⟩
  · rw [LL_send, if_pos hc]
  · rw [LL_receive]
    simp only [hc, if_true]
  · by_cases hc : st.connected = false
    · rw [LL_send, if_pos hc]
    · rw [LL_send, if_neg hc, if_pos hl]

/-- C6, witness: a disconnected send and receive, and an oversized
(201-byte) send on a fresh connection. -/
theorem C6_baduse_witness :
    (LL_send { LL_connect with connected := false } [1]
        (fun _ => SendEvent.ackTimeout) =
      (BADUSE, { LL_connect with connected := false }, []) ∧
     LL_receive { LL_connect with connected := false } 16
        (fun _ => RecvEvent.timeout) =
      (.baduse, { LL_connect with connected := false }, [])) ∧
    LL_send LL_connect (List.replicate 201 0)
        (fun _ => SendEvent.ackTimeout) = (BADUSE, LL_connect, []) :=
  ⟨(C6_baduse { LL_connect with connected := false } [1] 16
      (fun _ => SendEvent.ackTimeout) (fun _ => RecvEvent.timeout)).1 rfl,
   (C6_baduse LL_connect (List.replicate 201 0) 16
      (fun _ => SendEvent.ackTimeout) (fun _ => RecvEvent.timeout)).2
      (by rw [List.length_replicate]; decide)⟩

/-! ### Claim C7 -/

/-- C7: classification of responses in `LL_send`'s retry loop (normal
mode): a parsed response carrying the sequence just sent ends the loop
with `SUCCESS` after bumping the good-frame and ack-received counters; a
response failing the frame check bumps the bad-frame counter and the loop
retransmits; a parsed response with a different sequence bumps the
nak-received counter and the loop retransmits; every frame transmitted by
the loop is the identical frame built before it (same bytes, same
sequence number); each counter is bumped exactly once per event. -/
theorem C7_response_classification (seq : Int) (st : LLState)
    (f frame : List ℕ) (env : ℕ → SendEvent) (a fuel : ℕ) :
    (checkFrame f f.length = FRAMEGOOD →
      ((f.getD SEQNUMPOS 0 : ℕ) : Int) = seq →
      sendStep seq st (.ackFrame f) =
        .done { st with framesSent := st.framesSent + 1,
                        goodFrames := st.goodFrames + 1,
                        acksRx := st.acksRx + 1 }) ∧
    (checkFrame f f.length ≠ FRAMEGOOD →
      sendStep seq st (.ackFrame f) =
        .again { st with framesSent := st.framesSent + 1,
                         badFrames := st.badFrames + 1 }) ∧
    (checkFrame f f.length = FRAMEGOOD →
      ((f.getD SEQNUMPOS 0 : ℕ) : Int) ≠ seq →
      sendStep seq st (.ackFrame f) =
        .again { st with framesSent := st.framesSent + 1,
                         goodFrames := st.goodFrames + 1,
                         naksRx := st.naksRx + 1 }) ∧
    (env a = .ackFrame f → checkFrame f f.length = FRAMEGOOD →
      ((f.getD SEQNUMPOS 0 : ℕ) : Int) = seq →
      sendLoop env frame seq st a (fuel + 1) =
        (SUCCESS, { st with framesSent := st.framesSent + 1,
                            goodFrames := st.goodFrames + 1,
                            acksRx := st.acksRx + 1,
                            seqNumTx := next seq }, [frame])) ∧
    (∀ g ∈ (sendLoop env frame seq st a fuel).2.2, g = frame) := by
  refine ⟨?_, ?_, ?_, ?_, sendLoop_trace env frame seq fuel st a⟩
  · intro hgood hseq
    rw [List.getD_eq_getElem?_getD] at hseq
    simp [sendStep, hgood, hseq]
  · intro hbad
    simp [sendStep, hbad]
  · intro hgood hseq
    rw [List.getD_eq_getElem?_getD] at hseq
    simp [sendStep, hgood, hseq]
  · intro henv hgood hseq
    rw [List.getD_eq_getElem?_getD] at hseq
    have hstep : sendStep seq st (.ackFrame f) =
        .done { st with framesSent := st.framesSent + 1,
                        goodFrames := st.goodFrames + 1,
                        acksRx := st.acksRx + 1 } := by
      simp [sendStep, hgood, hseq]
    rw [sendLoop, henv, hstep]

/-- C7, witness: the three response kinds at a fresh connection —
a matching acknowledgment, a corrupt frame, and an acknowledgment for a
different sequence number. -/
theorem C7_response_classification_witness :
    sendStep 0 LL_connect (.ackFrame [212, 5, 0, 5, 204]) =
      .done { LL_connect with framesSent := 1, goodFrames := 1,
                              acksRx := 1 } ∧
    sendStep 0 LL_connect (.ackFrame [0]) =
      .again { LL_connect with framesSent := 1, badFrames := 1 } ∧
    sendStep 0 LL_connect (.ackFrame [212, 5, 3, 8, 204]) =
      .again { LL_connect with framesSent := 1, goodFrames := 1,
                               naksRx := 1 } := by
  refine ⟨?_, ?_, ?_⟩
  · have h := (C7_response_classification 0 LL_connect [212, 5, 0, 5, 204]
      [] (fun _ => SendEvent.ackTimeout) 0 0).1 (by decide) (by decide)
    simpa using h
  · have h := (C7_response_classification 0 LL_connect [0]
      [] (fun _ => SendEvent.ackTimeout) 0 0).2.1 (by decide)
    simpa using h
  · have h := (C7_response_classification 0 LL_connect [212, 5, 3, 8, 204]
      [] (fun _ => SendEvent.ackTimeout) 0 0).2.2.1 (by decide) (by decide)
    simpa using h

/-! ### Receiver loop lemmas -/

/-- The state carried by a receive-loop-body disposition. -/
def RecvStepRes.state : RecvStepRes → LLState
  | .fail st => st
  | .done st _ _ _ => st
  | .again st _ _ => st

/-- The acknowledgements transmitted during one receive-loop iteration. -/
def RecvStepRes.ackList : RecvStepRes → List (ℕ × Int)
  | .fail _ => []
  | .done _ a _ _ => a
  | .again _ a _ => a

/-- Every acknowledgement a receive-loop iteration sends is a `POSACK`:
the receiver never hands `NEGACK` to `sendAck`. -/
theorem recvStep_acks_posack (e : Int) (m : ℕ) (st : LLState)
    (buf : List ℕ × Int) (ev : RecvEvent) :
    ∀ pr ∈ (recvStep e m st buf ev).ackList, pr.1 = POSACK := by
  cases ev with
  | recvError => simp [recvStep, RecvStepRes.ackList]
  | timeout => simp [recvStep, RecvStepRes.ackList]
  | frame f =>
      simp only [recvStep]
      split
      · simp [RecvStepRes.ackList]
      · split
        · simp [sendAck, RecvStepRes.ackList]
        · split
          · simp [sendAck, RecvStepRes.ackList]
          · simp [sendAck, RecvStepRes.ackList]

/-- A receive-loop iteration never changes `naksSent`. -/
theorem recvStep_naksSent (e : Int) (m : ℕ) (st : LLState)
    (buf : List ℕ × Int) (ev : RecvEvent) :
    (recvStep e m st buf ev).state.naksSent = st.naksSent := by
  cases ev with
  | recvError => simp [recvStep, RecvStepRes.state]
  | timeout => simp [recvStep, RecvStepRes.state]
  | frame f =>
      simp only [recvStep]
      split
      · simp [RecvStepRes.state]
      · split
        · simp [sendAck, RecvStepRes.state, POSACK]
        · split
          · simp [sendAck, RecvStepRes.state, POSACK]
          · simp [sendAck, RecvStepRes.state, POSACK]

/-- Every acknowledgement the receive loop sends is a `POSACK`. -/
theorem recvLoop_acks_posack (env : ℕ → RecvEvent) (e : Int) (m : ℕ) :
    ∀ (fuel : ℕ) (st : LLState) (buf : List ℕ × Int) (a : ℕ),
      ∀ pr ∈ (recvLoop env e m st buf a fuel).2.2, pr.1 = POSACK
  | 0, st, buf, a => by simp [recvLoop]
  | fuel + 1, st, buf, a => by
      rw [recvLoop]
      cases h : recvStep e m st buf (env a) with
      | fail st' => simp
      | done st' acks d n =>
          have hh := recvStep_acks_posack e m st buf (env a)
          rw [h] at hh
          simpa [RecvStepRes.ackList] using hh
      | again st' acks buf' =>
          intro pr hpr
          simp only [List.mem_append] at hpr
          rcases hpr with hpr | hpr
          · have hh := recvStep_acks_posack e m st buf (env a)
            rw [h] at hh
            exact hh pr hpr
          · exact recvLoop_acks_posack env e m fuel st' buf' (a + 1) pr hpr

/-- The receive loop never changes `naksSent`. -/
theorem recvLoop_naksSent (env : ℕ → RecvEvent) (e : Int) (m : ℕ) :
    ∀ (fuel : ℕ) (st : LLState) (buf : List ℕ × Int) (a : ℕ),
      (recvLoop env e m st buf a fuel).2.1.naksSent = st.naksSent
  | 0, st, buf, a => by simp [recvLoop]
  | fuel + 1, st, buf, a => by
      rw [recvLoop]
      cases h : recvStep e m st buf (env a) with
      | fail st' =>
          have hh := recvStep_naksSent e m st buf (env a)
          rw [h] at hh
          exact hh
      | done st' acks d n =>
          have hh := recvStep_naksSent e m st buf (env a)
          rw [h] at hh
          exact hh
      | again st' acks buf' =>
          have hh := recvStep_naksSent e m st buf (env a)
          rw [h] at hh
          rw [recvLoop_naksSent env e m fuel st' buf' (a + 1)]
          exact hh

/-! ### Claim C1 -/

/-- C1: the code violates the claim.  With `lastSeqRx = 0` (block 0 was
the most recently accepted one), a retransmission of block 0 — the exact
duplicate case, `seqNumRx == lastSeqRx`, lines 338-349 — makes
`LL_receive` set `success = TRUE`, re-send the `POSACK`, and RETURN the
duplicate payload `[7, 8, 9]` to the caller: the payload is delivered a
second time and the loop terminates instead of continuing.  The spec
(§4.3/§8 at-most-once delivery) requires re-acknowledging without
re-delivering. -/
theorem C1_duplicate_redelivered :
    LL_receive { LL_connect with lastSeqRx := 0 } 16
        (fun _ => RecvEvent.frame (buildDataFrame [7, 8, 9] 0)) =
      (RecvResult.delivered [7, 8, 9] 3,
       { LL_connect with lastSeqRx := 0, goodFrames := 1, acksSent := 1 },
       [(POSACK, 0)]) := by
  decide

/-! ### Claim C9 -/

/-- A well-formed frame whose sequence number is neither `expected` nor
`lastSeqRx`: the iteration acknowledges `POSACK, lastSeqRx`, leaves
`lastSeqRx` unchanged, delivers nothing, and the loop goes round. -/
theorem recvStep_out_of_order (st : LLState) (maxData : ℕ)
    (buf : List ℕ × Int) (f : List ℕ)
    (hgood : checkFrame f f.length = FRAMEGOOD)
    (hne : ((f.getD SEQNUMPOS 0 : ℕ) : Int) ≠ next st.lastSeqRx)
    (hnd : ((f.getD SEQNUMPOS 0 : ℕ) : Int) ≠ st.lastSeqRx) :
    recvStep (next st.lastSeqRx) maxData st buf (.frame f) =
      .again { st with goodFrames := st.goodFrames + 1,
                       acksSent := st.acksSent + 1 }
        [(POSACK, st.lastSeqRx)]
        ((processFrame f f.length maxData).1,
         (processFrame f f.length maxData).2.2) := by
  have hnb : ¬ (checkFrame f f.length = FRAMEBAD) := by
    rw [hgood]; decide
  rw [List.getD_eq_getElem?_getD] at hne hnd
  simp [recvStep, processFrame, hnb, hne, hnd, sendAck]

/-- C9: in normal mode, a well-formed frame whose sequence number is
neither the expected value `next lastSeqRx` nor the last accepted value
`lastSeqRx` makes the receiver send a positive acknowledgment carrying
`lastSeqRx`, deliver nothing, leave `lastSeqRx` unchanged, and continue
its receive loop. -/
theorem C9_out_of_order_reack (st : LLState) (maxData : ℕ)
    (buf : List ℕ × Int) (f : List ℕ)
    (hgood : checkFrame f f.length = FRAMEGOOD)
    (hne : ((f.getD SEQNUMPOS 0 : ℕ) : Int) ≠ next st.lastSeqRx)
    (hnd : ((f.getD SEQNUMPOS 0 : ℕ) : Int) ≠ st.lastSeqRx) :
    recvStep (next st.lastSeqRx) maxData st buf (.frame f) =
      .again { st with goodFrames := st.goodFrames + 1,
                       acksSent := st.acksSent + 1 }
        [(POSACK, st.lastSeqRx)]
        ((processFrame f f.length maxData).1,
         (processFrame f f.length maxData).2.2) ∧
    (∀ (env : ℕ → RecvEvent) (a fuel : ℕ), env a = .frame f →
      recvLoop env (next st.lastSeqRx) maxData st buf a (fuel + 1) =
        ((recvLoop env (next st.lastSeqRx) maxData
            { st with goodFrames := st.goodFrames + 1,
                      acksSent := st.acksSent + 1 }
            ((processFrame f f.length maxData).1,
             (processFrame f f.length maxData).2.2) (a + 1) fuel).1,
         (recvLoop env (next st.lastSeqRx) maxData
            { st with goodFrames := st.goodFrames + 1,
                      acksSent := st.acksSent + 1 }
            ((processFrame f f.length maxData).1,
             (processFrame f f.length maxData).2.2) (a + 1) fuel).2.1,
         (POSACK, st.lastSeqRx) ::
           (recvLoop env (next st.lastSeqRx) maxData
              { st with goodFrames := st.goodFrames + 1,
                        acksSent := st.acksSent + 1 }
              ((processFrame f f.length maxData).1,
               (processFrame f f.length maxData).2.2) (a + 1) fuel).2.2)) := by
  refine ⟨recvStep_out_of_order st maxData buf f hgood hne hnd, ?_⟩
  intro env a fuel henv
  rw [recvLoop, henv, recvStep_out_of_order st maxData buf f hgood hne hnd]
  rfl

/-- C9, witness: a fresh connection (`lastSeqRx = -1`, expected 0)
receiving a well-formed frame with sequence 5. -/
theorem C9_out_of_order_reack_witness :
    recvStep (next LL_connect.lastSeqRx) 16 LL_connect ([], 0)
        (.frame (buildDataFrame [7, 8, 9] 5)) =
      .again { LL_connect with goodFrames := 1, acksSent := 1 }
        [(POSACK, -1)] ([7, 8, 9], 3) := by
  have h := (C9_out_of_order_reack LL_connect 16 ([], 0)
    (buildDataFrame [7, 8, 9] 5) (by decide) (by decide) (by decide)).1
  simpa using h

/-! ### Claim C10 -/

/-- C10: the receiver never emits a negative acknowledgment — every
acknowledgement the receive loop sends is of type `POSACK`; a frame that
fails `checkFrame` provokes no response transmission at all in normal
mode; and `naksSent`, 0 at connect, is changed by neither `LL_receive`
nor `LL_send`, so it remains 0 for the connection's lifetime. -/
theorem C10_no_negative_acks :
    (∀ (env : ℕ → RecvEvent) (e : Int) (m fuel : ℕ) (st : LLState)
        (buf : List ℕ × Int) (a : ℕ),
      ∀ pr ∈ (recvLoop env e m st buf a fuel).2.2, pr.1 = POSACK) ∧
    (∀ (e : Int) (m : ℕ) (st : LLState) (buf : List ℕ × Int) (f : List ℕ),
      checkFrame f f.length = FRAMEBAD →
      recvStep e m st buf (.frame f) =
        .again { st with badFrames := st.badFrames + 1 } [] buf) ∧
    (∀ (st : LLState) (m : ℕ) (env : ℕ → RecvEvent),
      (LL_receive st m env).2.1.naksSent = st.naksSent) ∧
    (∀ (st : LLState) (b : List ℕ) (env : ℕ → SendEvent),
      (LL_send st b env).2.1.naksSent = st.naksSent) ∧
    LL_connect.naksSent = 0 := by
  refine ⟨?_, ?_, ?_, ?_, rfl⟩
  · intro env e m fuel st buf a
    exact recvLoop_acks_posack env e m fuel st buf a
  · intro e m st buf f hbad
    simp [recvStep, hbad]
  · intro st m env
    rw [LL_receive]
    by_cases hc : st.connected = false
    · simp [hc]
    · simp only [hc, if_false]
      exact recvLoop_naksSent env (next st.lastSeqRx) m MAX_TRIES st ([], 0) 0
  · intro st b env
    rw [LL_send]
    by_cases h1 : st.connected = false
    · rw [if_pos h1]
    · rw [if_neg h1]
      by_cases h2 : MAX_BLK < b.length
      · rw [if_pos h2]
      · rw [if_neg h2]
        exact sendLoop_naksSent env _ st.seqNumTx MAX_TRIES st 0

/-- C10, witness: a corrupt frame provokes no acknowledgement, and a
full receive against silence leaves `naksSent` at 0. -/
theorem C10_no_negative_acks_witness :
    recvStep 0 16 LL_connect ([], 0) (.frame [0]) =
      .again { LL_connect with badFrames := 1 } [] ([], 0) ∧
    (LL_receive LL_connect 16 (fun _ => RecvEvent.timeout)).2.1.naksSent
      = 0 := by
  constructor
  · have h := C10_no_negative_acks.2.1 0 16 LL_connect ([], 0) [0]
      (by decide)
    simpa using h
  · have h := C10_no_negative_acks.2.2.1 LL_connect 16
      (fun _ => RecvEvent.timeout)
    simpa using h

end LinkLayer
